import Mathlib

/-!
Shallow embedding of the `slafling` CLI (Rust) for verification of its
specification claims.  The embedding covers:

* `src/config.rs` — size-string parsing (`parse_file_size`), size formatting
  (`format_size`), token resolution (`resolve_token`) and layered settings
  resolution (`resolve`);
* `src/slack.rs` — the three-step file upload (`upload_file_bytes`) and text
  posting (`post_message`), over an explicit transport oracle that records
  which remote endpoints are invoked;
* `src/main.rs` — the send pipeline (`run_send_with_resolved`): payload
  arbitration from the `--text` / `--file` flags and stdin, the confirmation
  gate, the size-limit check and the final dispatch.

Machine integers (`u64`) are modelled as `Nat`; the only `u64` arithmetic the
covered code performs is comparisons, multiplication and division of small
configuration constants, far from the wrap-around range, so no modular
reduction is required.  The `f64` arithmetic inside `parse_file_size` and
`format_size` is modelled by exact rational arithmetic over `Nat`
(numerator/denominator pairs); a comment at each definition states the exact
correspondence.  Fallible Rust code (`Result`) becomes `Except`.
-/

namespace Slafling

/-! ### Constants (config.rs lines 43-47) -/

def KB : Nat := 1024

def MB : Nat := 1048576

def GB : Nat := 1073741824

/-- Rust: `const DEFAULT_MAX_FILE_SIZE: u64 = 100 * MB;` -/
def DEFAULT_MAX_FILE_SIZE : Nat := 100 * MB

/-! ### Size-string parsing (config.rs `parse_file_size`, lines 49-69)

The Rust function trims the input, splits it at the first ASCII-alphabetic
character into a numeric part and a unit part, parses the numeric part as
`f64`, maps the upper-cased unit to a multiplier, and returns
`(num * multiplier as f64) as u64`.

Model notes:
* The numeric `f64` parse is modelled for plain decimal numerals
  (`digits`, `digits.digits`, `digits.`, `.digits`) as an exact fraction
  `(numerator, denominator)` with the denominator a power of ten; the
  exotic `f64` forms (signs, exponents, `inf`, `NaN`) are not modelled and
  are reported as a parse error.
* `(num * mult as f64) as u64` truncates toward zero; on the exact fraction
  `n / d` this is `n * mult / d` in `Nat` (floor division).  For every
  multiplier in the table (1, 2^10, 2^20, 2^30) and one-decimal numerals the
  `f64` computation is exact or its error cannot cross an integer boundary,
  so the `Nat` value coincides with the Rust value.
-/

inductive SizeError where
  | invalidNumber (s : String)
  | unknownUnit (u : String)
  deriving DecidableEq, Repr

/-- Numeric value of an ASCII digit character. -/
def digitVal (c : Char) : Nat := c.toNat - 48

/-- Most-significant-first digit-character list to `Nat` (Horner). -/
def digitsToNat (l : List Char) : Nat :=
  l.foldl (fun a c => a * 10 + digitVal c) 0

/-- Rust `str::trim` on a character list (drop whitespace at both ends). -/
def trimChars (l : List Char) : List Char :=
  ((l.dropWhile Char.isWhitespace).reverse.dropWhile Char.isWhitespace).reverse

/-- Split a character list at every occurrence of `sep` (the pieces, in
order).  List-level model of Rust's `str::split`. -/
def splitOnChar (sep : Char) : List Char → List (List Char)
  | [] => [[]]
  | c :: rest =>
    if c = sep then
      [] :: splitOnChar sep rest
    else
      match splitOnChar sep rest with
      | [] => [[c]]
      | g :: gs => (c :: g) :: gs

/-- Rust `str::trim` (drop whitespace at both ends), as a `String` map.
(The core-library `String.trim` is not reducible by the kernel, so the
character-list form is used throughout.) -/
def trimString (s : String) : String := ⟨trimChars s.toList⟩

/-- Rust `str::trim_end` (drop trailing whitespace). -/
def trimEndString (s : String) : String :=
  ⟨(s.toList.reverse.dropWhile Char.isWhitespace).reverse⟩

/-- Rust `str::to_lowercase` on the ASCII configuration keywords. -/
def lowerString (s : String) : String := ⟨s.toList.map Char.toLower⟩

/-- Rust `f64::from_str` restricted to plain decimal numerals: the exact value
as a fraction `numerator / denominator` with `denominator` a power of ten.
`none` models a parse error. -/
def parseDecimalChars (l : List Char) : Option (Nat × Nat) :=
  match splitOnChar '.' l with
  | [ip] =>
    if !ip.isEmpty && ip.all Char.isDigit then
      some (digitsToNat ip, 1)
    else
      none
  | [ip, fp] =>
    if (!ip.isEmpty || !fp.isEmpty) && ip.all Char.isDigit && fp.all Char.isDigit then
      some (digitsToNat (ip ++ fp), 10 ^ fp.length)
    else
      none
  | _ => none


/-- Index of the first ASCII-alphabetic character, as in Rust
`s.find(|c: char| c.is_ascii_alphabetic())`. -/
def firstAlphaIdx : List Char → Option Nat
  | [] => none
  | c :: rest =>
    if c.isAlpha then some 0 else (firstAlphaIdx rest).map (· + 1)

/-- The unit-multiplier table of `parse_file_size` (on the upper-cased unit). -/
def unitMultiplier : List Char → Option Nat
  | [] => some 1
  | ['B'] => some 1
  | ['K', 'B'] => some KB
  | ['K'] => some KB
  | ['M', 'B'] => some MB
  | ['M'] => some MB
  | ['G', 'B'] => some GB
  | ['G'] => some GB
  | _ => none

/-- Rust `parse_file_size` (config.rs lines 49-69). -/
def parse_file_size (s : String) : Except SizeError Nat :=
  let cs := trimChars s.toList
  let i := (firstAlphaIdx cs).getD cs.length
  let numPart := trimChars (cs.take i)
  let unitChars := (trimChars (cs.drop i)).map Char.toUpper
  match parseDecimalChars numPart with
  | none => .error (.invalidNumber s)
  | some (n, d) =>
    match unitMultiplier unitChars with
    | none => .error (.unknownUnit (String.mk unitChars))
    | some mult => .ok (n * mult / d)

/-! ### Size formatting (config.rs `format_size`, lines 396-406)

Rust picks the largest unit not exceeding the value and prints
`format!("{:.1}{unit}", bytes as f64 / unit as f64)` (or `format!("{bytes}B")`
below 1 KB).  The `{:.1}` formatting rounds the quotient to one decimal
place; it is modelled as round-half-up on the exact quotient,
`tenths = (20*b + u) / (2*u)` (`= ⌊10*b/u + 1/2⌋`), rendered as
`"{tenths/10}.{tenths%10}{unit}"`.  Any correct nearest rounding differs from
this by at most one in the last decimal, which the round-trip tolerance
absorbs. -/

/-- Decimal digit characters of `n`, most significant first. -/
def natChars (n : Nat) : List Char :=
  if n = 0 then ['0']
  else ((Nat.digits 10 n).reverse.map fun d => Char.ofNat (48 + d))

/-- One-decimal rounding of `10 * b / u` (round half up), in tenths of `u`. -/
def fmtTenths (b u : Nat) : Nat := (20 * b + u) / (2 * u)

/-- Character rendering `"{t/10}.{t%10}" ++ unit` of a tenths count. -/
def fmtOneDecimal (t : Nat) (unit : List Char) : List Char :=
  natChars (t / 10) ++ '.' :: (natChars (t % 10) ++ unit)

/-- Rust `format_size` (config.rs lines 396-406). -/
def format_size (bytes : Nat) : String :=
  if bytes ≥ GB then ⟨fmtOneDecimal (fmtTenths bytes GB) ['G', 'B']⟩
  else if bytes ≥ MB then ⟨fmtOneDecimal (fmtTenths bytes MB) ['M', 'B']⟩
  else if bytes ≥ KB then ⟨fmtOneDecimal (fmtTenths bytes KB) ['K', 'B']⟩
  else ⟨natChars bytes ++ ['B']⟩

/-- The unit `format_size` selects for a byte count. -/
def sizeUnit (bytes : Nat) : Nat :=
  if bytes ≥ GB then GB
  else if bytes ≥ MB then MB
  else if bytes ≥ KB then KB
  else 1

/-- The byte count obtained by re-parsing the formatted size string: exact
below 1 KB, otherwise the formatted one-decimal value `tenths/10` of the
selected unit, truncated to whole bytes. -/
def sizeRoundtrip (bytes : Nat) : Nat :=
  if bytes ≥ KB then fmtTenths bytes (sizeUnit bytes) * sizeUnit bytes / 10
  else bytes

/-! ### Token resolution (config.rs `resolve_token`, lines 184-208)

`resolve_token` first consults the `SLAFLING_TOKEN` environment variable
(returning it when set and non-empty) and only then the configured store
backend (`keychain::get_token` or `token::get_token`, both
`Result<Option<String>>`).  The environment and the two store backends are
passed in explicitly as oracles, so theorems can quantify over them; the Rust
`std::env::var` result is `envToken : Option String` (a present, possibly
empty value, or unset). -/

inductive TokenError where
  | storeFailure
  | invalidStore (s : String)
  | notConfigured
  deriving DecidableEq, Repr

/-- Rust `resolve_token` (config.rs lines 184-208).  `keychainGet` / `fileGet`
model `keychain::get_token` / `token::get_token` as functions of the profile
name; `.error ()` is a backend failure propagated by `?`. -/
def resolve_token (envToken : Option String)
    (keychainGet fileGet : Option String → Except Unit (Option String))
    (token_store : String) (profile_name : Option String) :
    Except TokenError String :=
  let fromStore : Except TokenError String :=
    match token_store with
    | "keychain" =>
      match keychainGet profile_name with
      | .error _ => .error .storeFailure
      | .ok (some t) => .ok t
      | .ok none => .error .notConfigured
    | "file" =>
      match fileGet profile_name with
      | .error _ => .error .storeFailure
      | .ok (some t) => .ok t
      | .ok none => .error .notConfigured
    | other => .error (.invalidStore other)
  match envToken with
  | some t => if t = "" then fromStore else .ok t
  | none => fromStore

/-! ### Layered settings resolution (config.rs `resolve`, lines 250-289) -/

/-- config.rs `DefaultConfig` (the `[default]` section).  The `output` and
`search_types` fields exist in the source but are not consumed by `resolve`;
they are carried for fidelity. -/
structure DefaultConfig where
  channel : Option String
  max_file_size : Option String
  confirm : Option Bool
  output : Option String
  search_types : Option (List String)
  token_store : Option String
  deriving DecidableEq, Repr

/-- config.rs `Profile` (a `[profiles.<name>]` section); `output` and
`search_types` are not consumed by `resolve`. -/
structure Profile where
  channel : Option String
  max_file_size : Option String
  confirm : Option Bool
  output : Option String
  search_types : Option (List String)
  deriving DecidableEq, Repr

/-- config.rs `ConfigFile`; the profile `HashMap` becomes an association
list (lookup by name). -/
structure ConfigFile where
  default : DefaultConfig
  profiles : List (String × Profile)
  deriving DecidableEq, Repr

/-- config.rs `ResolvedConfig`. -/
structure ResolvedConfig where
  token : String
  channel : String
  max_file_size : Nat
  confirm : Bool
  deriving DecidableEq, Repr

/-- `HashMap::get` on the profile map. -/
def lookupProfile (profiles : List (String × Profile)) (name : String) :
    Option Profile :=
  (profiles.find? (fun p => p.1 == name)).map (·.2)

/-- The environment variables the config module reads.  Layered `resolve`
only ever reads `slafling_token` (via `resolve_token`); the other variables
are consulted exclusively by the headless path (`resolve_from_env`) and by
`resolve_output`.  They are carried here so that theorems can state exactly
that. -/
structure EnvVars where
  slafling_token : Option String
  slafling_channel : Option String
  slafling_max_file_size : Option String
  slafling_confirm : Option String
  slafling_output : Option String
  deriving DecidableEq, Repr

inductive ResolveError where
  | tokenError (e : TokenError)
  | profileNotFound (name : String)
  | channelNotConfigured
  | sizeError (e : SizeError)
  deriving DecidableEq, Repr

/-- Rust `default_token_store` (config.rs lines 95-101): `"keychain"` on
macOS, `"file"` elsewhere; modelled for the non-macOS build. -/
def default_token_store : String := "file"

/-- Rust `resolve_token_store` (config.rs lines 241-248). -/
def resolve_token_store (cfg : ConfigFile) : String :=
  lowerString (cfg.default.token_store.getD default_token_store)

/-- Precedence overlay on one optional field: the higher-priority layer's
value when present, otherwise the lower-priority layer's. -/
def overlay {α : Type} : Option α → Option α → Option α
  | some a, _ => some a
  | none, b => b

/-- Rust `resolve` (config.rs lines 250-289): token first (env over store),
then channel / max_file_size / confirm from the default section overridden
per-field by the selected profile, then the non-empty channel check and the
size-string parse (default ceiling when absent).  The source's sequential
per-field overwrites (`if let Some(c) = &profile.channel { channel = ... }`)
are exactly the per-field `overlay` of the profile layer over the default
layer. -/
def resolve (cfg : ConfigFile) (profile_name : Option String) (env : EnvVars)
    (keychainGet fileGet : Option String → Except Unit (Option String)) :
    Except ResolveError ResolvedConfig :=
  let token_store := resolve_token_store cfg
  match resolve_token env.slafling_token keychainGet fileGet token_store profile_name with
  | .error e => .error (.tokenError e)
  | .ok token =>
    let layered : Except ResolveError (Option String × Option String × Bool) :=
      let channel0 := cfg.default.channel
      let max0 := cfg.default.max_file_size
      let confirm0 := cfg.default.confirm.getD false
      match profile_name with
      | none => .ok (channel0, max0, confirm0)
      | some name =>
        match lookupProfile cfg.profiles name with
        | none => .error (.profileNotFound name)
        | some p =>
          .ok (overlay p.channel channel0, overlay p.max_file_size max0,
               (overlay p.confirm cfg.default.confirm).getD false)
    match layered with
    | .error e => .error e
    | .ok (channelOpt, maxOpt, confirm) =>
      match channelOpt with
      | some c =>
        if c = "" then .error .channelNotConfigured
        else
          match maxOpt with
          | some s =>
            match parse_file_size s with
            | .error e => .error (.sizeError e)
            | .ok max_file_size => .ok ⟨token, c, max_file_size, confirm⟩
          | none => .ok ⟨token, c, DEFAULT_MAX_FILE_SIZE, confirm⟩
      | none => .error .channelNotConfigured

/-! ### Remote API model (slack.rs)

Each remote operation is recorded as a `NetCall`; the transport's behaviour
(connection failure, unparsable body, or a parsed response body) is an
explicit oracle.  File bytes are modelled as `List Nat`. -/

/-- Which remote operation an error arose in. -/
inductive RemoteOp where
  | postText
  | acquireSlot
  | transfer
  | finalize
  deriving DecidableEq, Repr

/-- One remote invocation, with its request data. -/
inductive NetCall where
  | postMessage (token channel text : String)
  | getUploadUrl (token filename : String) (length : Nat)
  | uploadContent (url : String) (data : List Nat)
  | completeUpload (token fileId title channel : String)
      (comment : Option String)
  deriving DecidableEq, Repr

/-- slack.rs `GetUploadUrlResponse`. -/
structure UploadUrlResp where
  ok : Bool
  error : Option String
  upload_url : Option String
  file_id : Option String
  deriving DecidableEq, Repr

/-- slack.rs `CompleteUploadResponse`. -/
structure CompleteResp where
  ok : Bool
  error : Option String
  deriving DecidableEq, Repr

/-- The parsed body of the `chat.postMessage` response: the code only reads
the `ok` field and, on failure, the `error` string. -/
structure PostResp where
  ok : Bool
  error : Option String
  deriving DecidableEq, Repr

/-- Outcome of one HTTP exchange: connection/transport failure (`ureq`
error), a body that fails to parse, or a parsed body. -/
inductive RemoteResult (α : Type) where
  | noConnection
  | badBody
  | response (body : α)
  deriving DecidableEq, Repr

/-- Transport oracle: what each endpoint would answer if invoked.  The raw
bytes upload (`upload_file_content`) parses no body, so its outcome is just
success or transport failure. -/
structure Transport where
  uploadSlot : RemoteResult UploadUrlResp
  byteTransfer : Bool
  finalizeUpload : RemoteResult CompleteResp
  postText : RemoteResult PostResp
  deriving DecidableEq, Repr

/-- Errors surfaced by the slack module; each carries the operation it arose
in (the Rust errors carry it in their context/message text). -/
inductive SlackError where
  | transportFailure (op : RemoteOp)
  | parseFailure (op : RemoteOp)
  | apiError (op : RemoteOp) (code : String)
  | missingUploadUrl
  | missingFileId
  deriving DecidableEq, Repr

/-- The step an upload error identifies: the missing-field errors arise while
handling the step-1 response. -/
def SlackError.op : SlackError → RemoteOp
  | .transportFailure s => s
  | .parseFailure s => s
  | .apiError s _ => s
  | .missingUploadUrl => .acquireSlot
  | .missingFileId => .acquireSlot

/-- Rust `get_upload_url` (slack.rs lines 47-67): one call to
`files.getUploadURLExternal`; transport/parse failures, `ok=false`, and
missing `upload_url` / `file_id` are each errors; success yields the pair. -/
def get_upload_url (tr : Transport) (token filename : String) (length : Nat) :
    List NetCall × Except SlackError (String × String) :=
  ( [NetCall.getUploadUrl token filename length]
  , match tr.uploadSlot with
    | .noConnection => .error (.transportFailure .acquireSlot)
    | .badBody => .error (.parseFailure .acquireSlot)
    | .response body =>
      if !body.ok then
        .error (.apiError .acquireSlot (body.error.getD "unknown error"))
      else
        match body.upload_url with
        | none => .error .missingUploadUrl
        | some url =>
          match body.file_id with
          | none => .error .missingFileId
          | some fid => .ok (url, fid) )

/-- Rust `upload_file_content` (slack.rs lines 69-75): POST the raw bytes to
the issued URL; only a transport failure is possible (no body is parsed, no
`ok` check). -/
def upload_file_content (tr : Transport) (url : String) (data : List Nat) :
    List NetCall × Except SlackError Unit :=
  ( [NetCall.uploadContent url data]
  , if tr.byteTransfer then .ok () else .error (.transportFailure .transfer) )

/-- Rust `complete_upload` (slack.rs lines 92-124): one call to
`files.completeUploadExternal` registering `file_id` against the channel with
the optional initial comment. -/
def complete_upload (tr : Transport) (token fileId title channel : String)
    (comment : Option String) : List NetCall × Except SlackError Unit :=
  ( [NetCall.completeUpload token fileId title channel comment]
  , match tr.finalizeUpload with
    | .noConnection => .error (.transportFailure .finalize)
    | .badBody => .error (.parseFailure .finalize)
    | .response body =>
      if !body.ok then
        .error (.apiError .finalize (body.error.getD "unknown error"))
      else .ok () )

/-- Rust `upload_file_bytes` (slack.rs lines 126-138): the three steps in
sequence, each `?`-propagated, so a failing step ends the operation. -/
def upload_file_bytes (tr : Transport) (token channel filename : String)
    (data : List Nat) (comment : Option String) :
    List NetCall × Except SlackError Unit :=
  let s1 := get_upload_url tr token filename data.length
  match s1.2 with
  | .error e => (s1.1, .error e)
  | .ok (url, fid) =>
    let s2 := upload_file_content tr url data
    match s2.2 with
    | .error e => (s1.1 ++ s2.1, .error e)
    | .ok _ =>
      let s3 := complete_upload tr token fid filename channel comment
      (s1.1 ++ s2.1 ++ s3.1, s3.2)

/-- Rust `post_message` (slack.rs lines 10-29): one call to
`chat.postMessage`; `ok != true` surfaces the service error code. -/
def post_message (tr : Transport) (token channel text : String) :
    List NetCall × Except SlackError Unit :=
  ( [NetCall.postMessage token channel text]
  , match tr.postText with
    | .noConnection => .error (.transportFailure .postText)
    | .badBody => .error (.parseFailure .postText)
    | .response body =>
      if !body.ok then
        .error (.apiError .postText (body.error.getD "unknown error"))
      else .ok () )

/-! ### The send pipeline (main.rs `run_send_with_resolved`, lines 404-524)

The pipeline runs over an explicit environment: the state of standard input
(whether it is an interactive terminal, and its full contents — the code
reads stdin at most once, either as UTF-8 text or as raw bytes, so both views
are carried), a filesystem oracle for `std::fs::read`, the line the user
would type at the confirmation prompt, and the transport oracle.  Stdin and
prompt reads themselves are modelled as always succeeding (their I/O-error
`?` paths carry no logic). -/

/-- cli.rs `SendArgs` (lines 22-39).  `clap` gives `text`/`file` the value
`Some("")` when the flag is passed without an argument
(`default_missing_value = ""`), `None` when absent; `filename` defaults to
`"stdin"`; `yes` is the `-y` skip-confirmation flag. -/
structure SendArgs where
  text : Option String
  file : Option String
  filename : String
  yes : Bool
  deriving DecidableEq, Repr

/-- State of standard input: `interactive` is `stdin.is_terminal()`;
`textContent` is what `read_to_string` would yield, `byteContent` what
`read_to_end` would yield (two views of the one stream, which the code reads
at most once). -/
structure StdinState where
  interactive : Bool
  textContent : String
  byteContent : List Nat
  deriving DecidableEq, Repr

/-- Environment of one `run_send_with_resolved` invocation. -/
structure SendEnv where
  stdin : StdinState
  fs : String → Option (List Nat)
  confirmResponse : String
  transport : Transport

/-- The error surface of the send pipeline (each variant corresponds to one
`bail!`/`context` site in main.rs lines 404-524, plus the forwarded slack
errors). -/
inductive SendError where
  | noInputProvided
  | ambiguousStdin
  | fileStdinTerminal
  | textStdinTerminal
  | fileReadError (path : String)
  | invalidFilePath
  | confirmNotTty
  | aborted
  | fileTooLarge (actual limit : Nat)
  | messageEmpty
  | slackError (e : SlackError)
  deriving DecidableEq, Repr

/-- Rust `Path::file_name` on the paths this CLI sees (Unix separators, no
prefix component): the last non-empty, non-`"."` component, unless it is
`".."`. -/
def rustFileName (path : String) : Option String :=
  match (((splitOnChar '/' path.toList).map fun l => (⟨l⟩ : String)).filter
      fun c => !(c == "") && !(c == ".")).getLast? with
  | none => none
  | some c => if c = ".." then none else some c

/-- Payload arbitration (main.rs lines 404-469): decides the text and file
parts from the flags and stdin.  Mirrors the source exactly: the no-flag case
reads stdin as text (or errors on a terminal); otherwise the double
stdin-request is rejected, then the file part is resolved (stdin bytes for an
empty path, else `fs::read` + `file_name`), then the text part (stdin text
for an empty value). -/
def resolvePayload (env : SendEnv) (send : SendArgs) :
    Except SendError (Option String × Option (String × List Nat)) :=
  if send.text.isNone && send.file.isNone then
    if env.stdin.interactive then .error .noInputProvided
    else .ok (some (trimEndString env.stdin.textContent), none)
  else if send.text == some "" && send.file == some "" then
    .error .ambiguousStdin
  else
    let fileRes : Except SendError (Option (String × List Nat)) :=
      match send.file with
      | some path =>
        if path = "" then
          if env.stdin.interactive then .error .fileStdinTerminal
          else .ok (some (send.filename, env.stdin.byteContent))
        else
          match env.fs path with
          | none => .error (.fileReadError path)
          | some data =>
            match rustFileName path with
            | none => .error .invalidFilePath
            | some name => .ok (some (name, data))
      | none => .ok none
    match fileRes with
    | .error e => .error e
    | .ok fileData =>
      match send.text with
      | some t =>
        if t = "" then
          if env.stdin.interactive then .error .textStdinTerminal
          else .ok (some (trimEndString env.stdin.textContent), fileData)
        else .ok (some t, fileData)
      | none => .ok (none, fileData)

/-- The prompt acceptance test (main.rs line 492):
`matches!(input.trim(), "y" | "Y")`. -/
def isAffirmative (input : String) : Bool :=
  trimString input == "y" || trimString input == "Y"

/-- The confirmation gate (main.rs lines 471-495): active iff
`resolved.confirm && !send.yes`; requires a terminal, then accepts exactly a
trimmed `y`/`Y` line and aborts on anything else.  (The preview summary the
code prints to stderr carries no logic and is not modelled.) -/
def confirmGate (env : SendEnv) (send : SendArgs) (resolved : ResolvedConfig) :
    Except SendError Unit :=
  if resolved.confirm && !send.yes then
    if !env.stdin.interactive then .error .confirmNotTty
    else if isAffirmative env.confirmResponse then .ok ()
    else .error .aborted
  else .ok ()

/-- The caption attached to a file upload (main.rs lines 508-511):
`match text.as_deref() { Some("") | None => None, Some(t) => Some(t) }`. -/
def fileComment : Option String → Option String
  | some "" => none
  | none => none
  | some t => some t

/-- The post-gate dispatch (main.rs lines 497-523): file payloads are size
checked against `max_file_size` before the upload; text-only sends reject an
empty message before posting. -/
def dispatchPayload (env : SendEnv) (resolved : ResolvedConfig)
    (text : Option String) (file : Option (String × List Nat)) :
    List NetCall × Except SendError Unit :=
  match file with
  | some (filename, data) =>
    if data.length > resolved.max_file_size then
      ([], .error (.fileTooLarge data.length resolved.max_file_size))
    else
      ( (upload_file_bytes env.transport resolved.token resolved.channel
          filename data (fileComment text)).1
      , match (upload_file_bytes env.transport resolved.token resolved.channel
          filename data (fileComment text)).2 with
        | .ok u => .ok u
        | .error e => .error (.slackError e) )
  | none =>
    if text.getD "" = "" then ([], .error .messageEmpty)
    else
      ( (post_message env.transport resolved.token resolved.channel
          (text.getD "")).1
      , match (post_message env.transport resolved.token resolved.channel
          (text.getD "")).2 with
        | .ok u => .ok u
        | .error e => .error (.slackError e) )

/-- Rust `run_send_with_resolved` (main.rs lines 404-524): payload
arbitration, then the confirmation gate, then the dispatch; the recorded
remote invocations are returned alongside the outcome. -/
def run_send_with_resolved (env : SendEnv) (send : SendArgs)
    (resolved : ResolvedConfig) : List NetCall × Except SendError Unit :=
  match resolvePayload env send with
  | .error e => ([], .error e)
  | .ok (text, file) =>
    match confirmGate env send resolved with
    | .error e => ([], .error e)
    | .ok _ => dispatchPayload env resolved text file

end Slafling

open Slafling

/-! ## Theorems -/

/-- C7: Credential resolution has a fixed priority: for every token_store and
profile, if the environment credential variable is set and non-empty its
value is returned without consulting the configured store (the result is the
same for every keychain/file backend, including failing ones); when neither
the environment (unset or empty) nor the configured store (keychain or file)
yields a credential, resolution fails with the credential-not-configured
error. -/
theorem resolve_token_env_priority
    (keychainGet fileGet : Option String → Except Unit (Option String))
    (token_store : String) (profile_name : Option String) :
    (∀ t : String, t ≠ "" →
      resolve_token (some t) keychainGet fileGet token_store profile_name = .ok t) ∧
    (∀ envToken : Option String, envToken = none ∨ envToken = some "" →
      (token_store = "keychain" → keychainGet profile_name = .ok none →
        resolve_token envToken keychainGet fileGet token_store profile_name =
          .error .notConfigured) ∧
      (token_store = "file" → fileGet profile_name = .ok none →
        resolve_token envToken keychainGet fileGet token_store profile_name =
          .error .notConfigured)) := by
  constructor
  · intro t ht
    simp [resolve_token, ht]
  · intro envToken henv
    constructor
    · intro hstore hget
      subst hstore
      rcases henv with h | h <;> subst h <;> simp [resolve_token, hget]
    · intro hstore hget
      subst hstore
      rcases henv with h | h <;> subst h <;> simp [resolve_token, hget]

/-- Witness for `resolve_token_env_priority` at concrete inputs: a non-empty
environment token wins even over a failing keychain backend, and an unset
environment with an empty file store is the not-configured error. -/
theorem resolve_token_env_priority_witness :
    resolve_token (some "xoxb-env") (fun _ => .error ()) (fun _ => .error ())
      "keychain" none = .ok "xoxb-env" ∧
    resolve_token none (fun _ => .ok none) (fun _ => .ok none)
      "file" (some "work") = .error .notConfigured := by
  constructor
  · exact (resolve_token_env_priority (fun _ => .error ()) (fun _ => .error ())
      "keychain" none).1 "xoxb-env" (by decide)
  · exact ((resolve_token_env_priority (fun _ => .ok none) (fun _ => .ok none)
      "file" (some "work")).2 none (Or.inl rfl)).2 rfl rfl

/-- C3: The file upload performs exactly the three steps acquire slot,
transfer bytes, finalize, in that order; every step failure is terminal (no
later step is executed, no endpoint is invoked twice) and the error
identifies the failing step; in step 1 a non-ok response or a response
missing `upload_url` or `file_id` is a slot-acquisition error. -/
theorem upload_three_step_protocol (tr : Transport)
    (token channel filename : String) (data : List Nat)
    (comment : Option String) :
    (tr.uploadSlot = .noConnection →
      upload_file_bytes tr token channel filename data comment =
        ([.getUploadUrl token filename data.length],
         .error (.transportFailure .acquireSlot))) ∧
    (tr.uploadSlot = .badBody →
      upload_file_bytes tr token channel filename data comment =
        ([.getUploadUrl token filename data.length],
         .error (.parseFailure .acquireSlot))) ∧
    (∀ err uu fi, tr.uploadSlot = .response ⟨false, err, uu, fi⟩ →
      upload_file_bytes tr token channel filename data comment =
        ([.getUploadUrl token filename data.length],
         .error (.apiError .acquireSlot (err.getD "unknown error")))) ∧
    (∀ err fi, tr.uploadSlot = .response ⟨true, err, none, fi⟩ →
      upload_file_bytes tr token channel filename data comment =
        ([.getUploadUrl token filename data.length],
         .error .missingUploadUrl)) ∧
    (∀ err url, tr.uploadSlot = .response ⟨true, err, some url, none⟩ →
      upload_file_bytes tr token channel filename data comment =
        ([.getUploadUrl token filename data.length],
         .error .missingFileId)) ∧
    (∀ err url fid, tr.uploadSlot = .response ⟨true, err, some url, some fid⟩ →
      tr.byteTransfer = false →
      upload_file_bytes tr token channel filename data comment =
        ([.getUploadUrl token filename data.length, .uploadContent url data],
         .error (.transportFailure .transfer))) ∧
    (∀ err url fid, tr.uploadSlot = .response ⟨true, err, some url, some fid⟩ →
      tr.byteTransfer = true →
      (upload_file_bytes tr token channel filename data comment).1 =
        [.getUploadUrl token filename data.length, .uploadContent url data,
         .completeUpload token fid filename channel comment] ∧
      (tr.finalizeUpload = .noConnection →
        (upload_file_bytes tr token channel filename data comment).2 =
          .error (.transportFailure .finalize)) ∧
      (tr.finalizeUpload = .badBody →
        (upload_file_bytes tr token channel filename data comment).2 =
          .error (.parseFailure .finalize)) ∧
      (∀ ferr, tr.finalizeUpload = .response ⟨false, ferr⟩ →
        (upload_file_bytes tr token channel filename data comment).2 =
          .error (.apiError .finalize (ferr.getD "unknown error"))) ∧
      (∀ ferr, tr.finalizeUpload = .response ⟨true, ferr⟩ →
        (upload_file_bytes tr token channel filename data comment).2 = .ok ())) ∧
    (SlackError.missingUploadUrl.op = .acquireSlot ∧
     SlackError.missingFileId.op = .acquireSlot) := by
  refine ⟨?_, ?_, ?_, ?_, ?_, ?_, ?_, by constructor <;> rfl⟩
  · intro h
    simp [upload_file_bytes, get_upload_url, h]
  · intro h
    simp [upload_file_bytes, get_upload_url, h]
  · intro err uu fi h
    simp [upload_file_bytes, get_upload_url, h]
  · intro err fi h
    simp [upload_file_bytes, get_upload_url, h]
  · intro err url h
    simp [upload_file_bytes, get_upload_url, h]
  · intro err url fid h hbt
    simp [upload_file_bytes, get_upload_url, upload_file_content, h, hbt]
  · intro err url fid h hbt
    refine ⟨?_, ?_, ?_, ?_, ?_⟩
    · simp [upload_file_bytes, get_upload_url, upload_file_content,
        complete_upload, h, hbt]
    · intro hf
      simp [upload_file_bytes, get_upload_url, upload_file_content,
        complete_upload, h, hbt, hf]
    · intro hf
      simp [upload_file_bytes, get_upload_url, upload_file_content,
        complete_upload, h, hbt, hf]
    · intro ferr hf
      simp [upload_file_bytes, get_upload_url, upload_file_content,
        complete_upload, h, hbt, hf]
    · intro ferr hf
      simp [upload_file_bytes, get_upload_url, upload_file_content,
        complete_upload, h, hbt, hf]

/-- Witness for `upload_three_step_protocol`: with a transport whose slot
acquisition succeeds but whose byte transfer fails, the run stops after the
second call with a transfer error; and a slot response missing `file_id`
stops after the first call with a slot-acquisition-step error. -/
theorem upload_three_step_protocol_witness :
    upload_file_bytes
        ⟨.response ⟨true, none, some "https://up", some "F1"⟩, false,
         .response ⟨true, none⟩, .response ⟨true, none⟩⟩
        "tok" "#chan" "a.txt" [1, 2, 3] none =
      ([.getUploadUrl "tok" "a.txt" 3, .uploadContent "https://up" [1, 2, 3]],
       .error (.transportFailure .transfer)) ∧
    upload_file_bytes
        ⟨.response ⟨true, none, some "https://up", none⟩, true,
         .response ⟨true, none⟩, .response ⟨true, none⟩⟩
        "tok" "#chan" "a.txt" [1, 2, 3] none =
      ([.getUploadUrl "tok" "a.txt" 3], .error .missingFileId) := by
  constructor
  · exact (upload_three_step_protocol
      ⟨.response ⟨true, none, some "https://up", some "F1"⟩, false,
       .response ⟨true, none⟩, .response ⟨true, none⟩⟩
      "tok" "#chan" "a.txt" [1, 2, 3] none).2.2.2.2.2.1 none "https://up" "F1" rfl rfl
  · exact (upload_three_step_protocol
      ⟨.response ⟨true, none, some "https://up", none⟩, true,
       .response ⟨true, none⟩, .response ⟨true, none⟩⟩
      "tok" "#chan" "a.txt" [1, 2, 3] none).2.2.2.2.1 none "https://up" rfl

/-- Helper: the upload protocol never invokes the post-text endpoint. -/
theorem upload_calls_no_post (tr : Transport) (token channel fn : String)
    (data : List Nat) (cm : Option String) (tok ch m : String) :
    NetCall.postMessage tok ch m ∉
      (upload_file_bytes tr token channel fn data cm).1 := by
  rcases tr with ⟨slot, bt, fin, post⟩
  rcases slot with _ | _ | ⟨ok, err, uu, fi⟩ <;>
    [ simp [upload_file_bytes, get_upload_url];
      simp [upload_file_bytes, get_upload_url];
      skip ]
  rcases ok <;> rcases uu with _ | url <;> rcases fi with _ | fid <;> rcases bt <;>
    simp [upload_file_bytes, get_upload_url, upload_file_content, complete_upload]

/-- Helper: every `chat.postMessage` invocation the pipeline records carries a
non-empty message. -/
theorem run_post_calls_nonempty (env : SendEnv) (send : SendArgs)
    (resolved : ResolvedConfig) (tok ch m : String)
    (hm : NetCall.postMessage tok ch m ∈
      (run_send_with_resolved env send resolved).1) : m ≠ "" := by
  unfold run_send_with_resolved at hm
  rcases hpr : resolvePayload env send with e | ⟨text, file⟩ <;> rw [hpr] at hm
  · simp at hm
  · rcases hg : confirmGate env send resolved with e | u <;> rw [hg] at hm
    · simp at hm
    · rcases file with _ | ⟨fn, data⟩
      · simp only [dispatchPayload] at hm
        split at hm
        · simp at hm
        · rename_i hne
          simp [post_message] at hm
          rw [hm.2.2]
          exact hne
      · simp only [dispatchPayload] at hm
        split at hm
        · simp at hm
        · exact absurd (by simpa using hm)
            (upload_calls_no_post env.transport resolved.token
              resolved.channel fn data (fileComment text) tok ch m)

/-- C2: For every file payload whose byte length strictly exceeds the
resolved `max_file_size`, the send is rejected with the file-too-large error
(carrying the actual size and the limit) with zero recorded network calls —
before upload step 1; a payload whose length equals the limit exactly is not
rejected and proceeds to the upload. -/
theorem file_too_large_before_network (env : SendEnv) (send : SendArgs)
    (resolved : ResolvedConfig) :
    (∀ text fn data, resolvePayload env send = .ok (text, some (fn, data)) →
      data.length > resolved.max_file_size →
      (run_send_with_resolved env send resolved).1 = [] ∧
      (confirmGate env send resolved = .ok () →
        run_send_with_resolved env send resolved =
          ([], .error (.fileTooLarge data.length resolved.max_file_size)))) ∧
    (∀ text fn data, resolvePayload env send = .ok (text, some (fn, data)) →
      data.length = resolved.max_file_size →
      confirmGate env send resolved = .ok () →
      (run_send_with_resolved env send resolved).1 =
        (upload_file_bytes env.transport resolved.token resolved.channel fn data
          (fileComment text)).1 ∧
      ∀ a l, (run_send_with_resolved env send resolved).2 ≠
        .error (.fileTooLarge a l)) := by
  constructor
  · intro text fn data hpr hgt
    constructor
    · rcases hg : confirmGate env send resolved with e | u
      · simp [run_send_with_resolved, hpr, hg]
      · simp [run_send_with_resolved, hpr, hg, dispatchPayload, hgt]
    · intro hg
      simp [run_send_with_resolved, hpr, hg, dispatchPayload, hgt]
  · intro text fn data hpr heq hg
    have hno : ¬ data.length > resolved.max_file_size := by omega
    constructor
    · simp [run_send_with_resolved, hpr, hg, dispatchPayload, hno]
    · intro a l
      simp only [run_send_with_resolved, hpr, hg, dispatchPayload, hno,
        if_false, ite_false]
      rcases (upload_file_bytes env.transport resolved.token resolved.channel fn
          data (fileComment text)).2 with e | u <;> simp

/-- Witness for `file_too_large_before_network`: a 2-byte stdin file payload
against a 1-byte limit is rejected with the sizes in the error and no
network call recorded. -/
theorem file_too_large_before_network_witness :
    run_send_with_resolved
        ⟨⟨false, "", [7, 8]⟩, fun _ => none, "",
         ⟨.response ⟨true, none, some "u", some "f"⟩, true,
          .response ⟨true, none⟩, .response ⟨true, none⟩⟩⟩
        ⟨none, some "", "stdin", false⟩ ⟨"tok", "#c", 1, false⟩ =
      ([], .error (.fileTooLarge 2 1)) := by
  exact (((file_too_large_before_network
    ⟨⟨false, "", [7, 8]⟩, fun _ => none, "",
     ⟨.response ⟨true, none, some "u", some "f"⟩, true,
      .response ⟨true, none⟩, .response ⟨true, none⟩⟩⟩
    ⟨none, some "", "stdin", false⟩ ⟨"tok", "#c", 1, false⟩).1 none "stdin" [7, 8]
    rfl (by decide)).2 rfl)

/-- C4: Payload arbitration errors: both flags requesting stdin is the
ambiguous-stdin error; both flags absent with an interactive stdin is the
no-input-provided error; and every branch that must read stdin (file from
stdin, text from stdin — with or without an accompanying file path) fails
when stdin is an interactive terminal.  All of these reject before any
network call. -/
theorem payload_arbitration_errors (env : SendEnv) (send : SendArgs)
    (resolved : ResolvedConfig) :
    (send.text = some "" → send.file = some "" →
      run_send_with_resolved env send resolved = ([], .error .ambiguousStdin)) ∧
    (send.text = none → send.file = none → env.stdin.interactive = true →
      run_send_with_resolved env send resolved = ([], .error .noInputProvided)) ∧
    (send.file = some "" → send.text ≠ some "" → env.stdin.interactive = true →
      run_send_with_resolved env send resolved = ([], .error .fileStdinTerminal)) ∧
    (send.text = some "" → send.file = none → env.stdin.interactive = true →
      run_send_with_resolved env send resolved = ([], .error .textStdinTerminal)) ∧
    (∀ path, send.text = some "" → send.file = some path → path ≠ "" →
      env.stdin.interactive = true →
      (∀ data name, env.fs path = some data → rustFileName path = some name →
        run_send_with_resolved env send resolved =
          ([], .error .textStdinTerminal)) ∧
      (env.fs path = none →
        run_send_with_resolved env send resolved =
          ([], .error (.fileReadError path)))) := by
  refine ⟨?_, ?_, ?_, ?_, ?_⟩
  · intro h1 h2
    simp [run_send_with_resolved, resolvePayload, h1, h2]
  · intro h1 h2 h3
    simp [run_send_with_resolved, resolvePayload, h1, h2, h3]
  · intro h1 h2 h3
    rcases htext : send.text with _ | t
    · simp [run_send_with_resolved, resolvePayload, h1, htext, h3]
    · have ht : t ≠ "" := fun h => h2 (by rw [htext, h])
      simp [run_send_with_resolved, resolvePayload, h1, htext, h3, ht]
  · intro h1 h2 h3
    simp [run_send_with_resolved, resolvePayload, h1, h2, h3]
  · intro path h1 h2 hp h3
    constructor
    · intro data name hfs hname
      simp [run_send_with_resolved, resolvePayload, h1, h2, hp, h3, hfs, hname]
    · intro hfs
      simp [run_send_with_resolved, resolvePayload, h1, h2, hp, h3, hfs]

/-- Witness for `payload_arbitration_errors`: `-t -f` (both requesting
stdin) is rejected as ambiguous, and `-f` alone on an interactive terminal
is rejected, both with zero network calls. -/
theorem payload_arbitration_errors_witness :
    run_send_with_resolved
        ⟨⟨false, "", []⟩, fun _ => none, "",
         ⟨.noConnection, false, .noConnection, .noConnection⟩⟩
        ⟨some "", some "", "stdin", false⟩ ⟨"tok", "#c", 100, false⟩ =
      ([], .error .ambiguousStdin) ∧
    run_send_with_resolved
        ⟨⟨true, "", []⟩, fun _ => none, "",
         ⟨.noConnection, false, .noConnection, .noConnection⟩⟩
        ⟨none, some "", "stdin", false⟩ ⟨"tok", "#c", 100, false⟩ =
      ([], .error .fileStdinTerminal) := by
  constructor
  · exact (payload_arbitration_errors _ _ _).1 rfl rfl
  · exact (payload_arbitration_errors _ _ _).2.2.1 rfl (by decide) rfl

/-- C5: With a text value and a file path, both are resolved independently:
the bytes are read from the path (a failed read is the file-read error, with
no network call), the filename is the path's final segment, the file payload
is primary, and the non-empty text is attached to the upload as its
caption; an empty resolved text (or no text) attaches no caption. -/
theorem text_with_file_path (env : SendEnv) (send : SendArgs)
    (resolved : ResolvedConfig) (t path : String)
    (ht : send.text = some t) (ht' : t ≠ "") (hf : send.file = some path)
    (hp : path ≠ "") :
    (env.fs path = none →
      run_send_with_resolved env send resolved =
        ([], .error (.fileReadError path))) ∧
    (∀ data name, env.fs path = some data → rustFileName path = some name →
      resolvePayload env send = .ok (some t, some (name, data)) ∧
      (confirmGate env send resolved = .ok () →
        data.length ≤ resolved.max_file_size →
        (run_send_with_resolved env send resolved).1 =
          (upload_file_bytes env.transport resolved.token resolved.channel
            name data (some t)).1 ∧
        ((upload_file_bytes env.transport resolved.token resolved.channel
            name data (some t)).2 = .ok () →
          (run_send_with_resolved env send resolved).2 = .ok ()) ∧
        (∀ e, (upload_file_bytes env.transport resolved.token resolved.channel
            name data (some t)).2 = .error e →
          (run_send_with_resolved env send resolved).2 =
            .error (.slackError e)))) ∧
    fileComment (some t) = some t ∧ fileComment (some "") = none ∧
    fileComment none = none := by
  refine ⟨?_, ?_, ?_, by simp [fileComment], by simp [fileComment]⟩
  · intro hfs
    simp [run_send_with_resolved, resolvePayload, ht, ht', hf, hp, hfs]
  · intro data name hfs hname
    have hpr : resolvePayload env send = .ok (some t, some (name, data)) := by
      simp [resolvePayload, ht, ht', hf, hp, hfs, hname]
    refine ⟨hpr, ?_⟩
    intro hg hsz
    have hno : ¬ data.length > resolved.max_file_size := by omega
    have hcm : fileComment (some t) = some t := by simp [fileComment, ht']
    refine ⟨?_, ?_, ?_⟩
    · simp [run_send_with_resolved, hpr, hg, dispatchPayload, hno, hcm]
    · intro hu
      simp [run_send_with_resolved, hpr, hg, dispatchPayload, hno, hcm, hu]
    · intro e hu
      simp [run_send_with_resolved, hpr, hg, dispatchPayload, hno, hcm, hu]
  · simp [fileComment, ht']

/-- Witness for `text_with_file_path`: `-t "hello" -f dir/a.txt` with a
readable 1-byte file uploads `a.txt` with caption `"hello"` in three steps. -/
theorem text_with_file_path_witness :
    (run_send_with_resolved
        ⟨⟨true, "", []⟩, fun p => if p = "dir/a.txt" then some [9] else none, "",
         ⟨.response ⟨true, none, some "https://up", some "F1"⟩, true,
          .response ⟨true, none⟩, .response ⟨true, none⟩⟩⟩
        ⟨some "hello", some "dir/a.txt", "stdin", false⟩
        ⟨"tok", "#c", 100, false⟩).1 =
      [.getUploadUrl "tok" "a.txt" 1, .uploadContent "https://up" [9],
       .completeUpload "tok" "F1" "a.txt" "#c" (some "hello")] := by
  exact ((((text_with_file_path
    ⟨⟨true, "", []⟩, fun p => if p = "dir/a.txt" then some [9] else none, "",
     ⟨.response ⟨true, none, some "https://up", some "F1"⟩, true,
      .response ⟨true, none⟩, .response ⟨true, none⟩⟩⟩
    ⟨some "hello", some "dir/a.txt", "stdin", false⟩
    ⟨"tok", "#c", 100, false⟩ "hello" "dir/a.txt" rfl (by decide) rfl
    (by decide)).2.1 [9] "a.txt" (by decide) rfl).2 rfl (by decide)).1)

/-- C6: The confirmation gate is a no-op when the skip flag is set or
`confirm` is false; otherwise it requires an interactive stdin
(non-interactive errors), accepts exactly a response whose trimmed content is
`y` or `Y`, aborts the send on any other response with zero network calls,
and on an affirmative response the network call is made exactly once. -/
theorem confirmation_gate_behavior (env : SendEnv) (send : SendArgs)
    (resolved : ResolvedConfig) (text : Option String)
    (file : Option (String × List Nat))
    (hpr : resolvePayload env send = .ok (text, file)) :
    (resolved.confirm = false →
      run_send_with_resolved env send resolved =
        dispatchPayload env resolved text file) ∧
    (send.yes = true →
      run_send_with_resolved env send resolved =
        dispatchPayload env resolved text file) ∧
    (resolved.confirm = true → send.yes = false →
      (env.stdin.interactive = false →
        run_send_with_resolved env send resolved =
          ([], .error .confirmNotTty)) ∧
      (env.stdin.interactive = true →
        isAffirmative env.confirmResponse = false →
        run_send_with_resolved env send resolved = ([], .error .aborted)) ∧
      (env.stdin.interactive = true →
        isAffirmative env.confirmResponse = true →
        run_send_with_resolved env send resolved =
          dispatchPayload env resolved text file)) ∧
    (∀ s : String, isAffirmative s = true ↔ trimString s = "y" ∨ trimString s = "Y") ∧
    (isAffirmative "y" = true ∧ isAffirmative "Y" = true ∧
      isAffirmative "n" = false ∧ isAffirmative "yes" = false ∧
      isAffirmative "" = false) ∧
    (∀ msg, file = none → text = some msg → msg ≠ "" →
      confirmGate env send resolved = .ok () →
      (run_send_with_resolved env send resolved).1 =
        [.postMessage resolved.token resolved.channel msg]) := by
  refine ⟨?_, ?_, ?_, ?_, ?_, ?_⟩
  · intro h
    simp [run_send_with_resolved, hpr, confirmGate, h]
  · intro h
    simp [run_send_with_resolved, hpr, confirmGate, h]
  · intro h1 h2
    refine ⟨?_, ?_, ?_⟩
    · intro h3
      simp [run_send_with_resolved, hpr, confirmGate, h1, h2, h3]
    · intro h3 h4
      simp [run_send_with_resolved, hpr, confirmGate, h1, h2, h3, h4]
    · intro h3 h4
      simp [run_send_with_resolved, hpr, confirmGate, h1, h2, h3, h4]
  · intro s
    simp [isAffirmative]
  · refine ⟨by decide, by decide, by decide, by decide, by decide⟩
  · intro msg hfile htext hmsg hg
    subst hfile htext
    simp [run_send_with_resolved, hpr, hg, dispatchPayload, hmsg, post_message]

/-- Witness for `confirmation_gate_behavior`: with confirmation required, a
`"n"` response aborts with zero network calls, and a `"y"` response posts the
message exactly once. -/
theorem confirmation_gate_behavior_witness :
    run_send_with_resolved
        ⟨⟨true, "", []⟩, fun _ => none, "n",
         ⟨.noConnection, false, .noConnection, .response ⟨true, none⟩⟩⟩
        ⟨some "hi", none, "stdin", false⟩ ⟨"tok", "#c", 100, true⟩ =
      ([], .error .aborted) ∧
    (run_send_with_resolved
        ⟨⟨true, "", []⟩, fun _ => none, "y",
         ⟨.noConnection, false, .noConnection, .response ⟨true, none⟩⟩⟩
        ⟨some "hi", none, "stdin", false⟩ ⟨"tok", "#c", 100, true⟩).1 =
      [.postMessage "tok" "#c" "hi"] := by
  constructor
  · exact ((confirmation_gate_behavior
      ⟨⟨true, "", []⟩, fun _ => none, "n",
       ⟨.noConnection, false, .noConnection, .response ⟨true, none⟩⟩⟩
      ⟨some "hi", none, "stdin", false⟩ ⟨"tok", "#c", 100, true⟩
      (some "hi") none rfl).2.2.1 rfl rfl).2.1 rfl (by decide)
  · exact (confirmation_gate_behavior
      ⟨⟨true, "", []⟩, fun _ => none, "y",
       ⟨.noConnection, false, .noConnection, .response ⟨true, none⟩⟩⟩
      ⟨some "hi", none, "stdin", false⟩ ⟨"tok", "#c", 100, true⟩
      (some "hi") none rfl).2.2.2.2.2 "hi" rfl rfl (by decide) rfl


/-- C9: A text flag given the explicit empty-string value is
indistinguishable from a text flag requesting stdin: with `text = Some("")`
resolution reads the text from stdin (erroring when stdin is an interactive
terminal) and the literal empty flag value never becomes the posted payload
(an empty stdin read is rejected as an empty message, and every recorded
post carries a non-empty message); likewise `file = Some("")` reads the raw
bytes from stdin under the default filename and never consults the
filesystem. -/
theorem empty_flag_value_reads_stdin (env : SendEnv) (send : SendArgs)
    (resolved : ResolvedConfig) :
    (send.text = some "" → send.file = none →
      (env.stdin.interactive = true →
        run_send_with_resolved env send resolved =
          ([], .error .textStdinTerminal)) ∧
      (env.stdin.interactive = false →
        resolvePayload env send =
          .ok (some (trimEndString env.stdin.textContent), none))) ∧
    (send.text = some "" → send.file = none → env.stdin.interactive = false →
      trimEndString env.stdin.textContent = "" →
      confirmGate env send resolved = .ok () →
      run_send_with_resolved env send resolved =
        ([], .error .messageEmpty)) ∧
    (send.file = some "" → send.text = none → env.stdin.interactive = false →
      resolvePayload env send =
        .ok (none, some (send.filename, env.stdin.byteContent))) ∧
    (send.file = some "" → send.text = none → env.stdin.interactive = true →
      run_send_with_resolved env send resolved =
        ([], .error .fileStdinTerminal)) ∧
    (∀ fs fs' : String → Option (List Nat), send.file = some "" →
      resolvePayload ⟨env.stdin, fs, env.confirmResponse, env.transport⟩ send =
        resolvePayload ⟨env.stdin, fs', env.confirmResponse, env.transport⟩
          send) ∧
    (∀ tok ch m, NetCall.postMessage tok ch m ∈
      (run_send_with_resolved env send resolved).1 → m ≠ "") := by
  refine ⟨?_, ?_, ?_, ?_, ?_,
    fun tok ch m hm => run_post_calls_nonempty env send resolved tok ch m hm⟩
  · intro h1 h2
    constructor
    · intro h3
      simp [run_send_with_resolved, resolvePayload, h1, h2, h3]
    · intro h3
      simp [resolvePayload, h1, h2, h3]
  · intro h1 h2 h3 htrim hg
    have hpr : resolvePayload env send = .ok (some "", none) := by
      rw [← htrim]
      simp [resolvePayload, h1, h2, h3]
    simp [run_send_with_resolved, hpr, hg, dispatchPayload]
  · intro h1 h2 h3
    simp [resolvePayload, h1, h2, h3]
  · intro h1 h2 h3
    simp [run_send_with_resolved, resolvePayload, h1, h2, h3]
  · intro fs fs' h1
    rcases htext : send.text with _ | t
    · simp [resolvePayload, h1, htext]
    · by_cases ht : t = ""
      · subst ht
        simp [resolvePayload, h1, htext]
      · simp [resolvePayload, h1, htext, ht]

/-- Witness for `empty_flag_value_reads_stdin`: `-t ""` with piped stdin
`"hi\n"` resolves to the text `"hi"` read from stdin, and `-f ""` with piped
binary stdin resolves to a file payload named by the default filename. -/
theorem empty_flag_value_reads_stdin_witness :
    resolvePayload
        ⟨⟨false, "hi\n", [1, 2]⟩, fun _ => none, "",
         ⟨.noConnection, false, .noConnection, .noConnection⟩⟩
        ⟨some "", none, "stdin", false⟩ = .ok (some "hi", none) ∧
    resolvePayload
        ⟨⟨false, "hi\n", [1, 2]⟩, fun _ => none, "",
         ⟨.noConnection, false, .noConnection, .noConnection⟩⟩
        ⟨none, some "", "out.bin", false⟩ =
      .ok (none, some ("out.bin", [1, 2])) := by
  constructor
  · exact ((empty_flag_value_reads_stdin
      ⟨⟨false, "hi\n", [1, 2]⟩, fun _ => none, "",
       ⟨.noConnection, false, .noConnection, .noConnection⟩⟩
      ⟨some "", none, "stdin", false⟩ ⟨"tok", "#c", 100, false⟩).1 rfl rfl).2 rfl
  · exact (empty_flag_value_reads_stdin
      ⟨⟨false, "hi\n", [1, 2]⟩, fun _ => none, "",
       ⟨.noConnection, false, .noConnection, .noConnection⟩⟩
      ⟨none, some "", "out.bin", false⟩ ⟨"tok", "#c", 100, false⟩).2.2.1 rfl rfl rfl

/-- C10: In text-only mode a resolved message that is empty — from an empty
stdin read or absent text — is rejected: no network call is recorded in any
case, and once the confirmation gate passes the error is the message-is-empty
error; the post-text endpoint is only ever invoked with a non-empty
message. -/
theorem empty_message_rejected (env : SendEnv) (send : SendArgs)
    (resolved : ResolvedConfig) :
    (∀ text, resolvePayload env send = .ok (text, none) → text.getD "" = "" →
      (run_send_with_resolved env send resolved).1 = [] ∧
      (confirmGate env send resolved = .ok () →
        run_send_with_resolved env send resolved =
          ([], .error .messageEmpty))) ∧
    (∀ tok ch m, NetCall.postMessage tok ch m ∈
      (run_send_with_resolved env send resolved).1 → m ≠ "") := by
  constructor
  · intro text hpr hempty
    constructor
    · rcases hg : confirmGate env send resolved with e | u
      · simp [run_send_with_resolved, hpr, hg]
      · simp [run_send_with_resolved, hpr, hg, dispatchPayload, hempty]
    · intro hg
      simp [run_send_with_resolved, hpr, hg, dispatchPayload, hempty]
  · exact fun tok ch m hm => run_post_calls_nonempty env send resolved tok ch m hm

/-- Witness for `empty_message_rejected`: a pipe supplying only a newline
(no flags) resolves to the empty message and is rejected with the
message-is-empty error and zero network calls. -/
theorem empty_message_rejected_witness :
    run_send_with_resolved
        ⟨⟨false, "\n", []⟩, fun _ => none, "",
         ⟨.noConnection, false, .noConnection, .response ⟨true, none⟩⟩⟩
        ⟨none, none, "stdin", false⟩ ⟨"tok", "#c", 100, false⟩ =
      ([], .error .messageEmpty) := by
  exact ((empty_message_rejected
    ⟨⟨false, "\n", []⟩, fun _ => none, "",
     ⟨.noConnection, false, .noConnection, .response ⟨true, none⟩⟩⟩
    ⟨none, none, "stdin", false⟩ ⟨"tok", "#c", 100, false⟩).1 (some "")
    rfl rfl).2 rfl

/-- C1 counterexample: in layered (non-headless) resolution a destination
environment override does NOT supersede the profile/default channel.  With
the default channel `#general`, the profile channel `#team`, and the
environment destination override set to `#override`, `resolve` returns the
profile's `#team`: the environment value is ignored for the destination
field. -/
theorem resolve_env_destination_ignored :
    (EnvVars.mk (some "xoxb-env") (some "#override") none none
        none).slafling_channel = some "#override" ∧
    resolve
        ⟨⟨some "#general", none, none, none, none, some "file"⟩,
         [("work", ⟨some "#team", none, none, none, none⟩)]⟩
        (some "work")
        ⟨some "xoxb-env", some "#override", none, none, none⟩
        (fun _ => .ok none) (fun _ => .ok none) =
      .ok ⟨"xoxb-env", "#team", DEFAULT_MAX_FILE_SIZE, false⟩ ∧
    ("#team" : String) ≠ "#override" := by
  exact ⟨rfl, rfl, by decide⟩

/-- C1 (amended): in layered (non-headless) resolution the destination, size
limit and confirmation flag are resolved purely from the configuration
layers — the value comes from the profile layer when it defines the field
and from the default layer otherwise, with a hard error when no layer
defines the destination — and no environment variable other than the
credential override is consulted (the result is unchanged under arbitrary
changes to the destination/size/confirm environment overrides). -/
theorem resolve_layer_precedence (cfg : ConfigFile) (env env' : EnvVars)
    (k f : Option String → Except Unit (Option String)) :
    (env.slafling_token = env'.slafling_token → ∀ pn,
      resolve cfg pn env k f = resolve cfg pn env' k f) ∧
    (∀ name p r, lookupProfile cfg.profiles name = some p →
      resolve cfg (some name) env k f = .ok r →
      overlay p.channel cfg.default.channel = some r.channel ∧
      r.channel ≠ "" ∧
      r.confirm = (overlay p.confirm cfg.default.confirm).getD false ∧
      (∀ s, overlay p.max_file_size cfg.default.max_file_size = some s →
        parse_file_size s = .ok r.max_file_size) ∧
      (overlay p.max_file_size cfg.default.max_file_size = none →
        r.max_file_size = DEFAULT_MAX_FILE_SIZE)) ∧
    (∀ r, resolve cfg none env k f = .ok r →
      cfg.default.channel = some r.channel ∧
      r.channel ≠ "" ∧
      r.confirm = cfg.default.confirm.getD false ∧
      (∀ s, cfg.default.max_file_size = some s →
        parse_file_size s = .ok r.max_file_size) ∧
      (cfg.default.max_file_size = none →
        r.max_file_size = DEFAULT_MAX_FILE_SIZE)) ∧
    (∀ name p, lookupProfile cfg.profiles name = some p →
      overlay p.channel cfg.default.channel = none →
      ∀ r, resolve cfg (some name) env k f ≠ .ok r) := by
  refine ⟨?_, ?_, ?_, ?_⟩
  · intro h pn
    unfold resolve
    rw [h]
  · intro name p r hlk hr
    rcases htk : resolve_token env.slafling_token k f (resolve_token_store cfg)
        (some name) with e | token
    · simp [resolve, htk] at hr
    · rcases hov : overlay p.channel cfg.default.channel with _ | c
      · simp [resolve, htk, hlk, hov] at hr
      · by_cases hc : c = ""
        · simp [resolve, htk, hlk, hov, hc] at hr
        · rcases hmax : overlay p.max_file_size cfg.default.max_file_size
              with _ | s
          · have hval : resolve cfg (some name) env k f =
                .ok ⟨token, c, DEFAULT_MAX_FILE_SIZE,
                     (overlay p.confirm cfg.default.confirm).getD false⟩ := by
              simp [resolve, htk, hlk, hov, hmax, hc]
            have h2 := hval.symm.trans hr
            injection h2 with h3
            subst h3
            exact ⟨rfl, hc, rfl, fun s hs => Option.noConfusion hs,
              fun _ => rfl⟩
          · rcases hp : parse_file_size s with e | v
            · simp [resolve, htk, hlk, hov, hmax, hc, hp] at hr
            · have hval : resolve cfg (some name) env k f =
                  .ok ⟨token, c, v,
                       (overlay p.confirm cfg.default.confirm).getD false⟩ := by
                simp [resolve, htk, hlk, hov, hmax, hc, hp]
              have h2 := hval.symm.trans hr
              injection h2 with h3
              subst h3
              refine ⟨rfl, hc, rfl, ?_, fun hs => Option.noConfusion hs⟩
              intro s' hs'
              cases hs'
              exact hp
  · intro r hr
    rcases htk : resolve_token env.slafling_token k f (resolve_token_store cfg)
        none with e | token
    · simp [resolve, htk] at hr
    · rcases hov : cfg.default.channel with _ | c
      · simp [resolve, htk, hov] at hr
      · by_cases hc : c = ""
        · simp [resolve, htk, hov, hc] at hr
        · rcases hmax : cfg.default.max_file_size with _ | s
          · have hval : resolve cfg none env k f =
                .ok ⟨token, c, DEFAULT_MAX_FILE_SIZE,
                     cfg.default.confirm.getD false⟩ := by
              simp [resolve, htk, hov, hmax, hc]
            have h2 := hval.symm.trans hr
            injection h2 with h3
            subst h3
            exact ⟨rfl, hc, rfl, fun s hs => Option.noConfusion hs,
              fun _ => rfl⟩
          · rcases hp : parse_file_size s with e | v
            · simp [resolve, htk, hov, hmax, hc, hp] at hr
            · have hval : resolve cfg none env k f =
                  .ok ⟨token, c, v, cfg.default.confirm.getD false⟩ := by
                simp [resolve, htk, hov, hmax, hc, hp]
              have h2 := hval.symm.trans hr
              injection h2 with h3
              subst h3
              refine ⟨rfl, hc, rfl, ?_, fun hs => Option.noConfusion hs⟩
              intro s' hs'
              cases hs'
              exact hp
  · intro name p hlk hov r
    rcases htk : resolve_token env.slafling_token k f (resolve_token_store cfg)
        (some name) with e | token
    · simp [resolve, htk]
    · simp [resolve, htk, hlk, hov]

/-- Witness for `resolve_layer_precedence`: with a default channel, a profile
overriding it, a size limit only in the default layer, and a confirm flag
only in the profile layer, resolution takes each field from the
highest-priority layer defining it, and the result ignores the env
destination override entirely. -/
theorem resolve_layer_precedence_witness :
    resolve
        ⟨⟨some "#general", some "2KB", none, none, none, some "file"⟩,
         [("work", ⟨some "#team", none, some true, none, none⟩)]⟩
        (some "work")
        ⟨some "xoxb-env", some "#ignored", some "9GB", some "false", none⟩
        (fun _ => .ok none) (fun _ => .ok none) =
      resolve
        ⟨⟨some "#general", some "2KB", none, none, none, some "file"⟩,
         [("work", ⟨some "#team", none, some true, none, none⟩)]⟩
        (some "work")
        ⟨some "xoxb-env", none, none, none, none⟩
        (fun _ => .ok none) (fun _ => .ok none) ∧
    overlay (some "#team") (some "#general") = some "#team" ∧
    ("#team" : String) ≠ "" ∧
    (true : Bool) = (overlay (some true) none).getD false ∧
    parse_file_size "2KB" = .ok 2048 := by
  have h := resolve_layer_precedence
    ⟨⟨some "#general", some "2KB", none, none, none, some "file"⟩,
     [("work", ⟨some "#team", none, some true, none, none⟩)]⟩
    ⟨some "xoxb-env", some "#ignored", some "9GB", some "false", none⟩
    ⟨some "xoxb-env", none, none, none, none⟩
    (fun _ => .ok none) (fun _ => .ok none)
  refine ⟨h.1 rfl (some "work"), rfl, by decide, ?_, ?_⟩
  · have h2 := (h.2.1 "work" ⟨some "#team", none, some true, none, none⟩
      ⟨"xoxb-env", "#team", 2048, true⟩ rfl rfl)
    exact h2.2.2.1
  · have h2 := (h.2.1 "work" ⟨some "#team", none, some true, none, none⟩
      ⟨"xoxb-env", "#team", 2048, true⟩ rfl rfl)
    exact h2.2.2.2.1 "2KB" rfl

/-! Helper lemmas for the size round-trip (C8). -/

/-- Helper: character-class facts for the decimal digit characters. -/
theorem digitChar_facts (d : Nat) (hd : d < 10) :
    (Char.ofNat (48 + d)).isDigit = true ∧ (Char.ofNat (48 + d)).isAlpha = false ∧
    (Char.ofNat (48 + d)).isWhitespace = false ∧ (Char.ofNat (48 + d)) ≠ '.' ∧
    digitVal (Char.ofNat (48 + d)) = d := by
  interval_cases d <;>
    exact ⟨by decide, by decide, by decide, by decide, by decide⟩

/-- Helper: every character `natChars` emits is a digit (hence not
alphabetic, not whitespace, not the decimal point). -/
theorem natChars_mem_facts (n : Nat) :
    ∀ c ∈ natChars n, c.isDigit = true ∧ c.isAlpha = false ∧
      c.isWhitespace = false ∧ c ≠ '.' := by
  intro c hc
  unfold natChars at hc
  split at hc
  · simp only [List.mem_singleton] at hc
    subst hc
    exact ⟨by decide, by decide, by decide, by decide⟩
  · simp only [List.mem_map, List.mem_reverse] at hc
    obtain ⟨d, hd, rfl⟩ := hc
    have hlt : d < 10 := Nat.digits_lt_base (by norm_num) hd
    have h := digitChar_facts d hlt
    exact ⟨h.1, h.2.1, h.2.2.1, h.2.2.2.1⟩

/-- Helper: `natChars` is never empty. -/
theorem natChars_ne_nil (n : Nat) : natChars n ≠ [] := by
  unfold natChars
  split
  · simp
  · rename_i h
    simp [Nat.digits_ne_nil_iff_ne_zero, h]

/-- Helper: Horner evaluation of a reversed digit list is `Nat.ofDigits`. -/
theorem foldl_digits_horner (ds : List Nat) (acc : Nat) :
    List.foldl (fun a d => a * 10 + d) acc ds.reverse =
      acc * 10 ^ ds.length + Nat.ofDigits 10 ds := by
  induction ds generalizing acc with
  | nil => simp
  | cons d ds ih =>
    rw [List.reverse_cons, List.foldl_append]
    simp only [List.foldl_cons, List.foldl_nil]
    rw [ih, Nat.ofDigits_cons]
    simp only [List.length_cons, pow_succ]
    ring

/-- Helper: folding `digitVal` over mapped digit characters is the numeric
fold. -/
theorem foldl_digitVal_map (l : List Nat) (acc : Nat) (h : ∀ d ∈ l, d < 10) :
    List.foldl (fun a c => a * 10 + digitVal c) acc
        (l.map fun d => Char.ofNat (48 + d)) =
      List.foldl (fun a d => a * 10 + d) acc l := by
  induction l generalizing acc with
  | nil => rfl
  | cons d ds ih =>
    simp only [List.map_cons, List.foldl_cons]
    rw [(digitChar_facts d (h d (List.mem_cons_self d ds))).2.2.2.2]
    exact ih _ (fun x hx => h x (List.mem_cons_of_mem d hx))

/-- Helper: `digitsToNat` inverts `natChars`. -/
theorem digitsToNat_natChars (n : Nat) : digitsToNat (natChars n) = n := by
  unfold natChars
  split
  · rename_i h
    subst h
    decide
  · have hlt : ∀ d ∈ (Nat.digits 10 n).reverse, d < 10 := fun d hd =>
      Nat.digits_lt_base (by norm_num) (List.mem_reverse.mp hd)
    unfold digitsToNat
    rw [show ((Nat.digits 10 n).reverse.map fun d => Char.ofNat (48 + d)) =
        ((Nat.digits 10 n).reverse.map fun d => Char.ofNat (48 + d)) from rfl]
    rw [foldl_digitVal_map _ 0 hlt, foldl_digits_horner]
    simp [Nat.ofDigits_digits]

/-- Helper: `natChars` of a single digit is one character. -/
theorem natChars_lt_ten (d : Nat) (hd : d < 10) :
    natChars d = [Char.ofNat (48 + d)] := by
  unfold natChars
  split
  · rename_i h
    subst h
    rfl
  · rename_i h
    rw [Nat.digits_def' (by norm_num : (1 : Nat) < 10) (Nat.pos_of_ne_zero h),
      Nat.mod_eq_of_lt hd, Nat.div_eq_of_lt hd]
    simp

/-- Helper: `dropWhile` is the identity when the predicate fails on every
element. -/
theorem dropWhile_eq_self_of_forall (p : Char → Bool) (l : List Char)
    (h : ∀ c ∈ l, p c = false) : l.dropWhile p = l := by
  cases l with
  | nil => rfl
  | cons c cs =>
    rw [List.dropWhile_cons, h c (List.mem_cons_self c cs)]
    simp

/-- Helper: trimming is the identity on whitespace-free character lists. -/
theorem trimChars_eq_self (l : List Char)
    (h : ∀ c ∈ l, c.isWhitespace = false) : trimChars l = l := by
  unfold trimChars
  rw [dropWhile_eq_self_of_forall _ _ h,
    dropWhile_eq_self_of_forall _ _ (fun c hc => h c (List.mem_reverse.mp hc)),
    List.reverse_reverse]

/-- Helper: the first-alphabetic index of a non-alphabetic prefix followed by
an alphabetic character. -/
theorem firstAlphaIdx_append (l1 l2 : List Char) (c : Char)
    (h1 : ∀ x ∈ l1, x.isAlpha = false) (hc : c.isAlpha = true) :
    firstAlphaIdx (l1 ++ c :: l2) = some l1.length := by
  induction l1 with
  | nil => simp [firstAlphaIdx, hc]
  | cons x xs ih =>
    simp only [List.cons_append, firstAlphaIdx]
    rw [h1 x (List.mem_cons_self x xs)]
    simp [ih (fun y hy => h1 y (List.mem_cons_of_mem x hy))]

/-- Helper: splitting a separator-free list yields the one piece. -/
theorem splitOnChar_not_mem (sep : Char) (l : List Char) (h : sep ∉ l) :
    splitOnChar sep l = [l] := by
  induction l with
  | nil => rfl
  | cons c cs ih =>
    have hc : ¬ c = sep := fun he => h (he ▸ List.mem_cons_self c cs)
    rw [splitOnChar, if_neg hc, ih (fun hm => h (List.mem_cons_of_mem c hm))]

/-- Helper: splitting at the single separator between two separator-free
parts. -/
theorem splitOnChar_append (sep : Char) (l1 l2 : List Char) (h : sep ∉ l1) :
    splitOnChar sep (l1 ++ sep :: l2) = l1 :: splitOnChar sep l2 := by
  induction l1 with
  | nil => simp [splitOnChar]
  | cons c cs ih =>
    have hc : ¬ c = sep := fun he => h (he ▸ List.mem_cons_self c cs)
    have ih2 := ih (fun hm => h (List.mem_cons_of_mem c hm))
    rw [List.cons_append, splitOnChar, if_neg hc, ih2]

/-- Helper: `parseDecimalChars` on a dotted pair of digit strings. -/
theorem parseDecimalChars_dotted (ip fp : List Char) (hipne : ip ≠ [])
    (hipd : ∀ c ∈ ip, c.isDigit = true) (hipdot : '.' ∉ ip)
    (hfpd : ∀ c ∈ fp, c.isDigit = true) (hfpdot : '.' ∉ fp) :
    parseDecimalChars (ip ++ '.' :: fp) =
      some (digitsToNat (ip ++ fp), 10 ^ fp.length) := by
  unfold parseDecimalChars
  rw [splitOnChar_append '.' ip fp hipdot, splitOnChar_not_mem '.' fp hfpdot]
  have hcond : ((!ip.isEmpty || !fp.isEmpty) && ip.all Char.isDigit &&
      fp.all Char.isDigit) = true := by
    have hie : ip.isEmpty = false := by
      cases ip with
      | nil => exact absurd rfl hipne
      | cons a l => rfl
    simp only [List.all_eq_true, Bool.and_eq_true, Bool.or_eq_true,
      Bool.not_eq_true']
    exact ⟨⟨Or.inl hie, hipd⟩, hfpd⟩
  simp [hcond]

/-- Helper: `parseDecimalChars` on a plain digit string. -/
theorem parseDecimalChars_digits (ip : List Char) (hipne : ip ≠ [])
    (hipd : ∀ c ∈ ip, c.isDigit = true) (hipdot : '.' ∉ ip) :
    parseDecimalChars ip = some (digitsToNat ip, 1) := by
  unfold parseDecimalChars
  rw [splitOnChar_not_mem '.' ip hipdot]
  have hcond : (!ip.isEmpty && ip.all Char.isDigit) = true := by
    have hie : ip.isEmpty = false := by
      cases ip with
      | nil => exact absurd rfl hipne
      | cons a l => rfl
    simp only [List.all_eq_true, Bool.and_eq_true, Bool.not_eq_true']
    exact ⟨hie, hipd⟩
  simp [hcond]

/-- Helper: appending one digit character multiplies by ten and adds it. -/
theorem digitsToNat_append_single (l : List Char) (c : Char) :
    digitsToNat (l ++ [c]) = digitsToNat l * 10 + digitVal c := by
  unfold digitsToNat
  rw [List.foldl_append]
  rfl

/-- Helper: `parse_file_size` on a whitespace-free numeric part followed by
an alphabetic unit recovers the parsed number times the unit multiplier. -/
theorem parse_file_size_formatted (pre : List Char) (c0 : Char)
    (urest : List Char) (n d u : Nat)
    (hpre : ∀ c ∈ pre, c.isAlpha = false ∧ c.isWhitespace = false)
    (hc0a : c0.isAlpha = true) (hc0w : c0.isWhitespace = false)
    (hur : ∀ c ∈ urest, c.isWhitespace = false)
    (hparse : parseDecimalChars pre = some (n, d))
    (hmult : unitMultiplier ((c0 :: urest).map Char.toUpper) = some u) :
    parse_file_size ⟨pre ++ c0 :: urest⟩ = .ok (n * u / d) := by
  have hnws : ∀ c ∈ pre ++ c0 :: urest, c.isWhitespace = false := by
    intro c hc
    rcases List.mem_append.mp hc with h | h
    · exact (hpre c h).2
    · rcases List.mem_cons.mp h with h | h
      · subst h
        exact hc0w
      · exact hur c h
  have htl : (String.mk (pre ++ c0 :: urest)).toList = pre ++ c0 :: urest := rfl
  have h1 : trimChars (pre ++ c0 :: urest) = pre ++ c0 :: urest :=
    trimChars_eq_self _ hnws
  have h2 : firstAlphaIdx (pre ++ c0 :: urest) = some pre.length :=
    firstAlphaIdx_append pre urest c0 (fun x hx => (hpre x hx).1) hc0a
  have h3 : (pre ++ c0 :: urest).take pre.length = pre := List.take_left pre _
  have h4 : (pre ++ c0 :: urest).drop pre.length = c0 :: urest :=
    List.drop_left pre _
  have h5 : trimChars pre = pre :=
    trimChars_eq_self _ (fun c hc => (hpre c hc).2)
  have h6 : trimChars (c0 :: urest) = c0 :: urest := by
    refine trimChars_eq_self _ ?_
    intro c hc
    rcases List.mem_cons.mp hc with h | h
    · subst h
      exact hc0w
    · exact hur c h
  simp only [parse_file_size, htl, h1, h2, Option.getD_some, h3, h4, h5, h6,
    hparse, hmult]

/-- Helper: `parse_file_size` inverts `fmtOneDecimal`: the parsed value of
`"{t/10}.{t%10}" ++ unit` is `t * u / 10` for the unit's multiplier `u`. -/
theorem parse_fmtOneDecimal (t u : Nat) (c0 : Char) (urest : List Char)
    (hc0a : c0.isAlpha = true) (hc0w : c0.isWhitespace = false)
    (hur : ∀ c ∈ urest, c.isWhitespace = false)
    (hmult : unitMultiplier ((c0 :: urest).map Char.toUpper) = some u) :
    parse_file_size ⟨fmtOneDecimal t (c0 :: urest)⟩ = .ok (t * u / 10) := by
  have hassoc : fmtOneDecimal t (c0 :: urest) =
      (natChars (t / 10) ++ '.' :: natChars (t % 10)) ++ c0 :: urest := by
    simp [fmtOneDecimal]
  have hmod : t % 10 < 10 := Nat.mod_lt t (by norm_num)
  have hparse : parseDecimalChars
      (natChars (t / 10) ++ '.' :: natChars (t % 10)) = some (t, 10) := by
    rw [parseDecimalChars_dotted _ _ (natChars_ne_nil _)
      (fun c hc => (natChars_mem_facts _ c hc).1)
      (fun hm => (natChars_mem_facts _ '.' hm).2.2.2 rfl)
      (fun c hc => (natChars_mem_facts _ c hc).1)
      (fun hm => (natChars_mem_facts _ '.' hm).2.2.2 rfl)]
    rw [natChars_lt_ten (t % 10) hmod, digitsToNat_append_single,
      digitsToNat_natChars, (digitChar_facts _ hmod).2.2.2.2]
    have : t / 10 * 10 + t % 10 = t := by omega
    simp [this]
  have hpre : ∀ c ∈ natChars (t / 10) ++ '.' :: natChars (t % 10),
      c.isAlpha = false ∧ c.isWhitespace = false := by
    intro c hc
    rcases List.mem_append.mp hc with h | h
    · exact ⟨(natChars_mem_facts _ c h).2.1, (natChars_mem_facts _ c h).2.2.1⟩
    · rcases List.mem_cons.mp h with h | h
      · subst h
        exact ⟨by decide, by decide⟩
      · exact ⟨(natChars_mem_facts _ c h).2.1, (natChars_mem_facts _ c h).2.2.1⟩
  rw [hassoc]
  exact parse_file_size_formatted _ c0 urest t 10 u hpre hc0a hc0w hur
    hparse hmult

/-- Helper: `parse_file_size` inverts the sub-kilobyte `"{bytes}B"`
rendering exactly. -/
theorem parse_natChars_bytes (b : Nat) :
    parse_file_size ⟨natChars b ++ ['B']⟩ = .ok b := by
  have hparse : parseDecimalChars (natChars b) =
      some (digitsToNat (natChars b), 1) :=
    parseDecimalChars_digits _ (natChars_ne_nil b)
      (fun c hc => (natChars_mem_facts b c hc).1)
      (fun hm => (natChars_mem_facts b '.' hm).2.2.2 rfl)
  have h := parse_file_size_formatted (natChars b) 'B' []
    (digitsToNat (natChars b)) 1 1
    (fun c hc => ⟨(natChars_mem_facts b c hc).2.1,
      (natChars_mem_facts b c hc).2.2.1⟩)
    (by decide) (by decide) (by simp) hparse (by decide)
  simpa [digitsToNat_natChars b] using h

/-- C8: For every byte count, formatting it with `format_size` and
re-parsing the formatted string with `parse_file_size` succeeds and yields a
value within the one-decimal rounding tolerance of the original: the
round-trip error is at most one twentieth of the display unit (plus the
1-byte truncation), and is zero below 1 KB. -/
theorem size_format_parse_roundtrip (b : Nat) :
    parse_file_size (format_size b) = .ok (sizeRoundtrip b) ∧
    20 * sizeRoundtrip b ≤ 20 * b + sizeUnit b ∧
    20 * b ≤ 20 * sizeRoundtrip b + sizeUnit b + 19 := by
  by_cases hGB : b ≥ GB
  · have hKB : b ≥ KB := le_trans (by norm_num [KB, GB]) hGB
    have hu : sizeUnit b = GB := by simp [sizeUnit, hGB]
    have hfmt : format_size b = ⟨fmtOneDecimal (fmtTenths b GB) ['G', 'B']⟩ := by
      simp [format_size, hGB]
    have hrt : sizeRoundtrip b = fmtTenths b GB * GB / 10 := by
      simp [sizeRoundtrip, hKB, hu]
    refine ⟨?_, ?_, ?_⟩
    · rw [hfmt, hrt]
      exact parse_fmtOneDecimal (fmtTenths b GB) GB 'G' ['B'] (by decide)
        (by decide) (by decide) (by decide)
    · rw [hrt, hu]
      simp only [fmtTenths, GB]
      omega
    · rw [hrt, hu]
      simp only [fmtTenths, GB]
      omega
  · by_cases hMB : b ≥ MB
    · have hKB : b ≥ KB := le_trans (by norm_num [KB, MB]) hMB
      have hu : sizeUnit b = MB := by simp [sizeUnit, hGB, hMB]
      have hfmt : format_size b =
          ⟨fmtOneDecimal (fmtTenths b MB) ['M', 'B']⟩ := by
        simp [format_size, hGB, hMB]
      have hrt : sizeRoundtrip b = fmtTenths b MB * MB / 10 := by
        simp [sizeRoundtrip, hKB, hu]
      refine ⟨?_, ?_, ?_⟩
      · rw [hfmt, hrt]
        exact parse_fmtOneDecimal (fmtTenths b MB) MB 'M' ['B'] (by decide)
          (by decide) (by decide) (by decide)
      · rw [hrt, hu]
        simp only [fmtTenths, MB]
        omega
      · rw [hrt, hu]
        simp only [fmtTenths, MB]
        omega
    · by_cases hKB : b ≥ KB
      · have hu : sizeUnit b = KB := by simp [sizeUnit, hGB, hMB, hKB]
        have hfmt : format_size b =
            ⟨fmtOneDecimal (fmtTenths b KB) ['K', 'B']⟩ := by
          simp [format_size, hGB, hMB, hKB]
        have hrt : sizeRoundtrip b = fmtTenths b KB * KB / 10 := by
          simp [sizeRoundtrip, hKB, hu]
        refine ⟨?_, ?_, ?_⟩
        · rw [hfmt, hrt]
          exact parse_fmtOneDecimal (fmtTenths b KB) KB 'K' ['B'] (by decide)
            (by decide) (by decide) (by decide)
        · rw [hrt, hu]
          simp only [fmtTenths, KB]
          omega
        · rw [hrt, hu]
          simp only [fmtTenths, KB]
          omega
      · have hu : sizeUnit b = 1 := by simp [sizeUnit, hGB, hMB, hKB]
        have hfmt : format_size b = ⟨natChars b ++ ['B']⟩ := by
          simp [format_size, hGB, hMB, hKB]
        have hrt : sizeRoundtrip b = b := by simp [sizeRoundtrip, hKB]
        refine ⟨?_, ?_, ?_⟩
        · rw [hfmt, hrt]
          exact parse_natChars_bytes b
        · rw [hrt, hu]
          omega
        · rw [hrt, hu]
          omega
